import Mathlib

/-!
Shallow embedding of the batch image-operation core of tacentview
(`Src/CommandOps.cpp`, `Src/CommandOps.h`).  Operation constructors take the
comma-exploded argument-token list (the output of the external
`tStd::tExplode`) and build the parsed operation records; the `Apply`
embeddings produce the sequence of Image-contract calls an operation would
issue on an image of the given dimensions, together with the success flag.
Machine `int` arithmetic is `Int` with C truncating division (`Int.tdiv`);
`float` computations are carried exactly on `Rat`, with C float-to-int casts
as truncation toward zero.
-/

set_option allowUnsafeReducibility true
attribute [local semireducible] Rat.add Rat.mul Rat.inv Rat.sub Rat.ofScientific

namespace TacentOps

/-- 8-bit RGBA colour: the embedding of the Tacent `tColour4i`. -/
structure Colour where
  R : Nat
  G : Nat
  B : Nat
  A : Nat
deriving DecidableEq, Repr

/-- `tColour4i::black` of the external Tacent colour library. -/
def Colour.black : Colour := ⟨0, 0, 0, 255⟩

/-- `tColour4i::white`. -/
def Colour.white : Colour := ⟨255, 255, 255, 255⟩

/-- `tColour4i::grey`. -/
def Colour.grey : Colour := ⟨128, 128, 128, 255⟩

/-- `tColour4i::red`. -/
def Colour.red : Colour := ⟨255, 0, 0, 255⟩

/-- `tColour4i::green`. -/
def Colour.green : Colour := ⟨0, 255, 0, 255⟩

/-- `tColour4i::blue`. -/
def Colour.blue : Colour := ⟨0, 0, 255, 255⟩

/-- `tColour4i::yellow`. -/
def Colour.yellow : Colour := ⟨255, 255, 0, 255⟩

/-- `tColour4i::cyan`. -/
def Colour.cyan : Colour := ⟨0, 255, 255, 255⟩

/-- `tColour4i::magenta`. -/
def Colour.magenta : Colour := ⟨255, 0, 255, 255⟩

/-- `tColour4i::transparent`. -/
def Colour.transparent : Colour := ⟨0, 0, 0, 0⟩

/-- Lower-cased code point of an ASCII character (kernel-reducible carrier for
    the case-insensitive compares). -/
def charLowerNat (c : Char) : Nat :=
  if 65 ≤ c.toNat ∧ c.toNat ≤ 90 then c.toNat + 32 else c.toNat

/-- Case-insensitive string equality (`tString::IsEqualCI` of the external
    string library). -/
def eqCI (s t : String) : Bool := s.data.map charLowerNat = t.data.map charLowerNat

/-- Decimal-digit test by code point. -/
def isDigitChar (c : Char) : Bool := 48 ≤ c.toNat ∧ c.toNat ≤ 57

/-- Whether a string contains a given character (`tString::FindChar` test). -/
def strContains (s : String) (c : Char) : Bool := s.data.any (fun x => x.toNat = c.toNat)

/-- Whether a string's first character is the given one. -/
def strHeadIs (s : String) (c : Char) : Bool :=
  match s.data with
  | x :: _ => x.toNat = c.toNat
  | _ => false

/-- Whether a string is empty (`tString::IsEmpty`). -/
def strIsEmpty (s : String) : Bool := s.data.isEmpty

/-- Split on a separator character; the embedding of the external
    `tStd::tExplode` used for the `:` ratio sub-fields. -/
def splitOnCharAux (c : Char) : List Char → List Char → List String
  | [], acc => [⟨acc.reverse⟩]
  | x :: xs, acc =>
    if x.toNat = c.toNat then ⟨acc.reverse⟩ :: splitOnCharAux c xs []
    else splitOnCharAux c xs (x :: acc)

/-- Split a string on a separator character. -/
def splitOnChar (s : String) (c : Char) : List String := splitOnCharAux c s.data []

/-- The leading run of decimal digits of a character list. -/
def leadingDigits (cs : List Char) : List Char := cs.takeWhile isDigitChar

/-- Value of a list of decimal digits. -/
def digitsToNat (cs : List Char) : Nat :=
  cs.foldl (fun n c => 10 * n + (c.toNat - 48)) 0

/-- External collaborator (`tString::AsInt32`), modelled per the grammar's
    leniency rule: optional sign then the leading run of decimal digits; a
    malformed token (such as the wildcard) yields 0. -/
def asInt32 (s : String) : Int :=
  match s.data with
  | '-' :: cs => -(digitsToNat (leadingDigits cs) : Int)
  | '+' :: cs => (digitsToNat (leadingDigits cs) : Int)
  | cs => (digitsToNat (leadingDigits cs) : Int)

/-- Decimal literal (integer part, optional fraction) as an exact rational. -/
def decimalToRat (cs : List Char) : Rat :=
  let intPart := leadingDigits cs
  let rest := cs.drop intPart.length
  let frac :=
    match rest with
    | '.' :: cs2 => leadingDigits cs2
    | _ => []
  (digitsToNat intPart : Rat) + (digitsToNat frac : Rat) / ((10 : Rat) ^ frac.length)

/-- External collaborator (`tString::AsFloat`), modelled per the grammar's
    leniency rule; the descriptor tokens the claims touch are short decimals,
    exactly representable, so the exact rational value is the float value. -/
def asFloat (s : String) : Rat :=
  match s.data with
  | '-' :: cs => -(decimalToRat cs)
  | '+' :: cs => decimalToRat cs
  | cs => decimalToRat cs

/-- External collaborator (`tString::AsBool`): truthy tokens. -/
def asBool (s : String) : Bool :=
  eqCI s "true" || eqCI s "t" || eqCI s "yes" || eqCI s "y" ||
  eqCI s "on" || s = "1"

/-- Hex digit test by code point. -/
def isHexDigitChar (c : Char) : Bool :=
  isDigitChar c ∨ (97 ≤ c.toNat ∧ c.toNat ≤ 102) ∨ (65 ≤ c.toNat ∧ c.toNat ≤ 70)

/-- Hex digit value. -/
def hexDigitVal (c : Char) : Nat :=
  if isDigitChar c then c.toNat - 48
  else if 97 ≤ c.toNat ∧ c.toNat ≤ 102 then c.toNat - 87
  else if 65 ≤ c.toNat ∧ c.toNat ≤ 70 then c.toNat - 55
  else 0

/-- External collaborator (`tString::AsUInt32(16)`): leading `#` base prefix
    then hex digits, truncated to 32 bits. -/
def asUInt32Hex (s : String) : Nat :=
  let cs := if strHeadIs s '#' then s.data.drop 1 else s.data
  ((cs.takeWhile isHexDigitChar).foldl (fun n c => 16 * n + hexDigitVal c) 0) % 4294967296

/-- RGBA unpack of a 32-bit `0xRRGGBBAA` value (CommandOps.cpp:161). -/
def colourOfHex (n : Nat) : Colour :=
  ⟨(n >>> 24) % 256, (n >>> 16) % 256, (n >>> 8) % 256, n % 256⟩

/-- The named-colour switch shared verbatim by the Canvas, Aspect, Deborder,
    Crop, Rotate and Channel constructors (e.g. CommandOps.cpp:165-177).
    Matching is on the exact token (`tHashString`).  NOTE: the source assigns
    `tColour4i::red` in both the "green" case and the "blue" case
    (CommandOps.cpp:171-172), and the transparent entry's token is "trans". -/
def namedColourLookup (tok : String) : Option Colour :=
  if tok = "black" then some Colour.black
  else if tok = "white" then some Colour.white
  else if tok = "grey" then some Colour.grey
  else if tok = "red" then some Colour.red
  else if tok = "green" then some Colour.red
  else if tok = "blue" then some Colour.red
  else if tok = "yellow" then some Colour.yellow
  else if tok = "cyan" then some Colour.cyan
  else if tok = "magenta" then some Colour.magenta
  else if tok = "trans" then some Colour.transparent
  else none

/-- Colour-token resolution of the fill-colour argument blocks
    (CommandOps.cpp:154-179 and their copies): `#` prefix parses hex RGBA,
    otherwise the named table is consulted and an unresolved token leaves the
    compiled-in default unchanged. -/
def colourFromToken (tok : String) (dflt : Colour) : Colour :=
  if strHeadIs tok '#' then colourOfHex (asUInt32Hex tok)
  else (namedColourLookup tok).getD dflt

/-- Resample filters of the external Tacent library (`tImage::tResampleFilter`).
    The library's enumeration is longer; these representatives preserve the
    order, with `nearest` first and `none` as the extra final entry (index
    `NumFilters`) that only the Rotate filter search may select. -/
inductive Filter where
  | nearest
  | box
  | bilinear
  | bicubic
  | lanczos
  | none
deriving DecidableEq, Repr

/-- `tResampleFilterNamesSimple` entries for the in-range filters. -/
def filterNames : List (String × Filter) :=
  [("nearest", .nearest), ("box", .box), ("bilinear", .bilinear),
   ("bicubic", .bicubic), ("lanczos", .lanczos)]

/-- Resize's filter argument (CommandOps.cpp:45-57): reset to Bilinear, then a
    case-insensitive search of the in-range filter names. -/
def filterFromTokenStd (tok : String) : Filter :=
  match filterNames.find? (fun p => eqCI tok p.1) with
  | some p => p.2
  | _ => .bilinear

/-- Rotate's filter arguments (CommandOps.cpp:707-737): the search range is
    `NumFilters + 1` so "none" is also considered; no match keeps the field's
    current (default) value. -/
def filterFromTokenExt (tok : String) (dflt : Filter) : Filter :=
  match (filterNames ++ [("none", Filter.none)]).find? (fun p => eqCI tok p.1) with
  | some p => p.2
  | _ => dflt

/-- `tImage::tResampleEdgeMode` of the external library. -/
inductive EdgeMode where
  | clamp
  | wrap
deriving DecidableEq, Repr

/-- Resize's edge-mode argument (CommandOps.cpp:59-71): reset to Clamp, then a
    case-insensitive search of the edge-mode names. -/
def edgeModeFromToken (tok : String) : EdgeMode :=
  if eqCI tok "clamp" then .clamp
  else if eqCI tok "wrap" then .wrap
  else .clamp

/-- `tImage::tPicture::Anchor` of the external library. -/
inductive Anchor where
  | leftTop
  | middleTop
  | rightTop
  | leftMiddle
  | middleMiddle
  | rightMiddle
  | leftBottom
  | middleBottom
  | rightBottom
deriving DecidableEq, Repr

/-- The anchor-token switch of Canvas/Aspect (CommandOps.cpp:135-151):
    exact-token match, default MiddleMiddle. -/
def anchorFromToken (tok : String) : Anchor :=
  if tok = "tl" then .leftTop
  else if tok = "tm" then .middleTop
  else if tok = "tr" then .rightTop
  else if tok = "ml" then .leftMiddle
  else if tok = "mm" then .middleMiddle
  else if tok = "mr" then .rightMiddle
  else if tok = "bl" then .leftBottom
  else if tok = "bm" then .middleBottom
  else if tok = "br" then .rightBottom
  else .middleMiddle

/-- `tMath::tiClamp` on machine ints. -/
def tiClamp (v lo hi : Int) : Int :=
  if v < lo then lo else if v > hi then hi else v

/-- `tMath::tiSaturate` on floats (exact rational carrier). -/
def tiSaturate (v : Rat) : Rat :=
  if v < 0 then 0 else if v > 1 then 1 else v

/-- `tMath::tiClampMin` on floats. -/
def tiClampMin (v m : Rat) : Rat := if v < m then m else v

/-- `tMath::tClampMax` on machine ints. -/
def tClampMax (v m : Int) : Int := if v > m then m else v

/-- C float-to-int cast: truncation toward zero. -/
def ratTruncInt (q : Rat) : Int := q.num.tdiv (q.den : Int)

/-- External collaborator `tMath::tFloatToInt`: round to nearest via
    `int(v + 0.5f)`. -/
def tFloatToInt (q : Rat) : Int := ratTruncInt (q + 1 / 2)

/-- Round-to-nearest of a rational, as the spec's "round" reads. -/
def ratRoundNearest (q : Rat) : Int := (q + 1 / 2).floor

/-- `Command::OperationResize` (CommandOps.h:31-40). -/
structure OperationResize where
  Valid : Bool := false
  Width : Int := 0
  Height : Int := 0
  ResampleFilter : Filter := .bilinear
  EdgeMode : EdgeMode := .clamp
deriving DecidableEq, Repr

/-- `Command::OperationResize::OperationResize` (CommandOps.cpp:21-74), on the
    comma-exploded argument tokens. -/
def operationResize (args : List String) : OperationResize :=
  if args.length < 2 then {}
  else
    let w := asInt32 (args.getD 0 "")
    let h := asInt32 (args.getD 1 "")
    if w ≤ 0 ∧ h ≤ 0 then { Width := w, Height := h }
    else
      let filt := if args.length ≥ 3 then filterFromTokenStd (args.getD 2 "") else .bilinear
      let em := if args.length ≥ 4 then edgeModeFromToken (args.getD 3 "") else .clamp
      { Valid := true, Width := w, Height := h, ResampleFilter := filt, EdgeMode := em }

/-- `Command::OperationCanvas` (CommandOps.h:43-54). -/
structure OperationCanvas where
  Valid : Bool := false
  Width : Int := 0
  Height : Int := 0
  Anchor : Anchor := .middleMiddle
  FillColour : Colour := Colour.black
  AnchorX : Int := -1
  AnchorY : Int := -1
deriving DecidableEq, Repr

/-- The optional explicit anchor-coordinate argument (CommandOps.cpp:181-197):
    an empty or `*`-leading token keeps the -1 default. -/
def anchorCoordFromToken (tok : String) : Int :=
  if ¬ strIsEmpty tok ∧ ¬ strHeadIs tok '*' then asInt32 tok else -1

/-- `Command::OperationCanvas::OperationCanvas` (CommandOps.cpp:110-200). -/
def operationCanvas (args : List String) : OperationCanvas :=
  if args.length < 2 then {}
  else
    let w := asInt32 (args.getD 0 "")
    let h := asInt32 (args.getD 1 "")
    if w ≤ 0 ∧ h ≤ 0 then { Width := w, Height := h }
    else
      let anc := if args.length ≥ 3 then anchorFromToken (args.getD 2 "") else .middleMiddle
      let fill := if args.length ≥ 4 then colourFromToken (args.getD 3 "") Colour.black else Colour.black
      let ax := if args.length ≥ 5 then anchorCoordFromToken (args.getD 4 "") else -1
      let ay := if args.length ≥ 6 then anchorCoordFromToken (args.getD 5 "") else -1
      { Valid := true, Width := w, Height := h, Anchor := anc, FillColour := fill,
        AnchorX := ax, AnchorY := ay }

/-- `OperationAspect::AspectMode` (CommandOps.h:62). -/
inductive AspectMode where
  | crop
  | letterbox
deriving DecidableEq, Repr

/-- `Command::OperationAspect` (CommandOps.h:57-70). -/
structure OperationAspect where
  Valid : Bool := false
  Num : Int := 16
  Den : Int := 9
  Mode : AspectMode := .crop
  Anchor : Anchor := .middleMiddle
  FillColour : Colour := Colour.black
  AnchorX : Int := -1
  AnchorY : Int := -1
deriving DecidableEq, Repr

/-- `Command::OperationAspect::OperationAspect` (CommandOps.cpp:252-346).  The
    ratio token is exploded on `:`; exactly two sub-fields replace Num/Den,
    non-positive or unparsable parts defaulting to 16 and 9. -/
def operationAspect (args : List String) : OperationAspect :=
  if args.length < 2 then {}
  else
    let ratioParts := splitOnChar (args.getD 0 "") ':'
    let nd : Int × Int :=
      if ratioParts.length = 2 then
        let n := asInt32 (ratioParts.getD 0 "")
        let d := asInt32 ((ratioParts.getLast?).getD "")
        (if n ≤ 0 then 16 else n, if d ≤ 0 then 9 else d)
      else (16, 9)
    let mode :=
      if args.getD 1 "" = "crop" then AspectMode.crop
      else if args.getD 1 "" = "letter" then AspectMode.letterbox
      else AspectMode.crop
    let anc := if args.length ≥ 3 then anchorFromToken (args.getD 2 "") else .middleMiddle
    let fill := if args.length ≥ 4 then colourFromToken (args.getD 3 "") Colour.black else Colour.black
    let ax := if args.length ≥ 5 then anchorCoordFromToken (args.getD 4 "") else -1
    let ay := if args.length ≥ 6 then anchorCoordFromToken (args.getD 5 "") else -1
    { Valid := true, Num := nd.1, Den := nd.2, Mode := mode, Anchor := anc,
      FillColour := fill, AnchorX := ax, AnchorY := ay }

/-- Channel bit masks of the external `tcomps` (R, G, B, A are the low four
    bits in that order). -/
def tComp_R : Nat := 1

/-- `tComp_G`. -/
def tComp_G : Nat := 2

/-- `tComp_B`. -/
def tComp_B : Nat := 4

/-- `tComp_A`. -/
def tComp_A : Nat := 8

/-- `tComp_RGB`. -/
def tComp_RGB : Nat := 7

/-- `tComp_RGBA`. -/
def tComp_RGBA : Nat := 15

/-- Whether a token contains any of `r/R` etc. (`tString::FindAny` tests). -/
def hasAnyChar (s : String) (a b : Char) : Bool := strContains s a || strContains s b

/-- The channel-mask accumulation shared by Deborder (CommandOps.cpp:448-453)
    and Channel (CommandOps.cpp:1404-1407): OR in a bit per channel letter
    found, over a starting mask. -/
def accumChanBits (s : String) (start : Nat) : Nat :=
  let c1 := if hasAnyChar s 'r' 'R' then start ||| tComp_R else start
  let c2 := if hasAnyChar s 'g' 'G' then c1 ||| tComp_G else c1
  let c3 := if hasAnyChar s 'b' 'B' then c2 ||| tComp_B else c2
  if hasAnyChar s 'a' 'A' then c3 ||| tComp_A else c3

/-- `Command::OperationDeborder` (CommandOps.h:73-81). -/
structure OperationDeborder where
  Valid : Bool := false
  UseTestColour : Bool := false
  TestColour : Colour := Colour.black
  Channels : Nat := tComp_RGBA
deriving DecidableEq, Repr

/-- `Command::OperationDeborder::OperationDeborder` (CommandOps.cpp:406-458).
    The named-colour switch's default case clears `UseTestColour`; an
    unresolved non-hex token therefore samples the image at apply time. -/
def operationDeborder (args : List String) : OperationDeborder :=
  let cd : Bool × Colour :=
    if args.length ≥ 1 then
      let colStr := args.getD 0 ""
      if strHeadIs colStr '#' then (true, colourOfHex (asUInt32Hex colStr))
      else
        match namedColourLookup colStr with
        | some c => (true, c)
        | _ => (false, Colour.black)
    else (false, Colour.black)
  let chans :=
    if args.length ≥ 2 then
      let chanStr := args.getD 1 ""
      let c0 := if strContains chanStr '*' then tComp_RGBA else 0
      let c := accumChanBits chanStr c0
      if c = 0 then tComp_RGBA else c
    else tComp_RGBA
  { Valid := true, UseTestColour := cd.1, TestColour := cd.2, Channels := chans }

/-- `OperationCrop::CropMode` (CommandOps.h:87). -/
inductive CropMode where
  | absolute
  | relative
deriving DecidableEq, Repr

/-- The Crop mode token switch (CommandOps.cpp:487-492). -/
def cropModeFromToken (tok : String) : CropMode :=
  if tok = "abs" then .absolute
  else if tok = "rel" then .relative
  else .absolute

/-- `Command::OperationCrop` (CommandOps.h:84-96). -/
structure OperationCrop where
  Valid : Bool := false
  Mode : CropMode := .absolute
  OriginX : Int := 0
  OriginY : Int := 0
  WidthOrMaxX : Int := 4
  HeightOrMaxY : Int := 4
  FillColour : Colour := Colour.transparent
deriving DecidableEq, Repr

/-- The non-positive third/fourth Crop argument defaults (CommandOps.cpp:503-513):
    3 in Absolute mode, 4 in Relative mode. -/
def cropDefaulted (mode : CropMode) (v : Int) : Int :=
  if v ≤ 0 then (if mode = .absolute then 3 else 4) else v

/-- `Command::OperationCrop::OperationCrop` (CommandOps.cpp:476-569). -/
def operationCrop (args : List String) : OperationCrop :=
  if args.length < 5 then {}
  else
    let mode := cropModeFromToken (args.getD 0 "")
    let ox := asInt32 (args.getD 1 "")
    let oy := asInt32 (args.getD 2 "")
    let wx := cropDefaulted mode (asInt32 (args.getD 3 ""))
    let hy := cropDefaulted mode (asInt32 (args.getD 4 ""))
    if ox < 0 ∨ oy < 0 then
      { Mode := mode, OriginX := ox, OriginY := oy, WidthOrMaxX := wx, HeightOrMaxY := hy }
    else if mode = .absolute ∧ (wx + 1 - ox < 4 ∨ hy + 1 - oy < 4) then
      { Mode := mode, OriginX := ox, OriginY := oy, WidthOrMaxX := wx, HeightOrMaxY := hy }
    else if mode = .relative ∧ (wx < 4 ∨ hy < 4) then
      { Mode := mode, OriginX := ox, OriginY := oy, WidthOrMaxX := wx, HeightOrMaxY := hy }
    else
      let fill := if args.length ≥ 6 then colourFromToken (args.getD 5 "") Colour.transparent
                  else Colour.transparent
      { Valid := true, Mode := mode, OriginX := ox, OriginY := oy,
        WidthOrMaxX := wx, HeightOrMaxY := hy, FillColour := fill }

/-- `OperationFlip::FlipMode` (CommandOps.h:102). -/
inductive FlipMode where
  | horizontal
  | vertical
deriving DecidableEq, Repr

/-- `Command::OperationFlip` (CommandOps.h:99-106). -/
structure OperationFlip where
  Valid : Bool := false
  Mode : FlipMode := .horizontal
deriving DecidableEq, Repr

/-- `Command::OperationFlip::OperationFlip` (CommandOps.cpp:590-618). -/
def operationFlip (args : List String) : OperationFlip :=
  let mode :=
    if args.length ≥ 1 then
      let tok := args.getD 0 ""
      if tok = "h" ∨ tok = "H" ∨ tok = "horizontal" ∨ tok = "Horizontal" then FlipMode.horizontal
      else if tok = "v" ∨ tok = "V" ∨ tok = "vertical" ∨ tok = "Vertical" then FlipMode.vertical
      else FlipMode.horizontal
    else FlipMode.horizontal
  { Valid := true, Mode := mode }

/-- `OperationRotate::ExactMode` (CommandOps.h:114). -/
inductive ExactMode where
  | off
  | zero
  | acw90
  | cw90
  | r180
deriving DecidableEq, Repr

/-- `OperationRotate::RotateMode` (CommandOps.h:117). -/
inductive RotateMode where
  | fill
  | crop
  | resize
deriving DecidableEq, Repr

/-- `Command::OperationRotate` (CommandOps.h:109-129).  The source stores the
    angle in radians via `tMath::tDegToRad`; since that multiplies by the
    irrational π/180 the embedding keeps the parsed numeric token together with
    its unit, which determines the radian value injectively. -/
structure OperationRotate where
  Valid : Bool := false
  AngleTok : Rat := 0
  AngleInDegrees : Bool := true
  Exact : ExactMode := .zero
  Mode : RotateMode := .crop
  FilterUp : Filter := .bilinear
  FilterDown : Filter := .none
  FillColour : Colour := Colour.black
deriving DecidableEq, Repr

/-- The Rotate mode token switch (CommandOps.cpp:695-705). -/
def rotateModeFromToken (tok : String) : RotateMode :=
  if tok = "fill" then .fill
  else if tok = "crop" then .crop
  else if tok = "resize" then .resize
  else .crop

/-- `Command::OperationRotate::OperationRotate` (CommandOps.cpp:633-768).
    Exact-mode strings are checked first; otherwise any `r` characters are
    stripped (selecting radians) and the token is parsed as a float, a zero
    value also selecting exact-zero mode. -/
def operationRotate (args : List String) : OperationRotate :=
  if args.length < 1 then {}
  else
    let angleStr := args.getD 0 ""
    if angleStr = "90" ∨ angleStr = "90.0" ∨ angleStr = "acw" ∨ angleStr = "ccw" then
      { Exact := .acw90, Valid := true }
    else if angleStr = "-90" ∨ angleStr = "-90.0" ∨ angleStr = "cw" then
      { Exact := .cw90, Valid := true }
    else if angleStr = "180" ∨ angleStr = "180.0" then
      { Exact := .r180, Valid := true }
    else if angleStr = "*" then
      { Exact := .zero, Valid := true }
    else
      let degrees := ¬ strContains angleStr 'r'
      let stripped : String := ⟨angleStr.data.filter (fun c => ¬ c.toNat = 114)⟩
      let ang := asFloat stripped
      if ang = 0 then { Exact := .zero, Valid := true }
      else
        let mode := if args.length ≥ 2 then rotateModeFromToken (args.getD 1 "") else .crop
        let fUp := if args.length ≥ 3 then filterFromTokenExt (args.getD 2 "") .bilinear else .bilinear
        let fDn := if args.length ≥ 4 then filterFromTokenExt (args.getD 3 "") .none else .none
        let fill := if args.length ≥ 5 then colourFromToken (args.getD 4 "") Colour.black else Colour.black
        { Valid := true, Exact := .off, AngleTok := ang, AngleInDegrees := degrees,
          Mode := mode, FilterUp := fUp, FilterDown := fDn, FillColour := fill }

/-- `Viewer::Image::AdjChan` of the external Image contract. -/
inductive AdjChan where
  | rgb
  | r
  | g
  | b
  | a
deriving DecidableEq, Repr

/-- The adjustment channel-token switch shared by Levels, Contrast and
    Brightness (CommandOps.cpp:926-958): exact-token match; no match keeps the
    RGB default. -/
def adjChanFromToken (tok : String) : AdjChan :=
  if tok = "*" ∨ tok = "rgb" ∨ tok = "RGB" then .rgb
  else if tok = "r" ∨ tok = "R" then .r
  else if tok = "g" ∨ tok = "G" then .g
  else if tok = "b" ∨ tok = "B" then .b
  else if tok = "a" ∨ tok = "A" then .a
  else .rgb

/-- `Command::OperationLevels` (CommandOps.h:132-136; the field declarations
    are not in the checked-in header, so defaults follow the spec §4.9:
    out-black 0, out-white 1, frame selector -1 = all frames, channels RGB,
    power-mid-gamma false). -/
structure OperationLevels where
  Valid : Bool := false
  BlackPoint : Rat := 0
  MidPoint : Rat := 1 / 2
  WhitePoint : Rat := 1
  OutBlackPoint : Rat := 0
  OutWhitePoint : Rat := 1
  FrameNumber : Int := -1
  Channels : AdjChan := .rgb
  PowerMidGamma : Bool := false
deriving DecidableEq, Repr

/-- `Command::OperationLevels::OperationLevels` (CommandOps.cpp:861-972).
    A `*` mid-point triggers auto mode (white clamped ≥ black, mid their
    average); otherwise mid saturates, is clamped ≥ black and white is clamped
    ≥ mid.  Out-white is clamped ≥ out-black (twice in the source).  The
    source dereferences its first three arguments unconditionally (the driver
    always supplies them); the embedding reads missing tokens as empty, which
    parse to 0. -/
def operationLevels (args : List String) : OperationLevels :=
  let bp := tiSaturate (asFloat (args.getD 0 ""))
  let mp0 : Rat := if args.getD 1 "" = "*" then -1 else asFloat (args.getD 1 "")
  let wp0 := tiSaturate (asFloat (args.getD 2 ""))
  let mw : Rat × Rat :=
    if mp0 < 0 then
      let wp := tiClampMin wp0 bp
      ((wp + bp) / 2, wp)
    else
      let mp := tiClampMin (tiSaturate mp0) bp
      (mp, tiClampMin wp0 mp)
  let obp := if args.length ≥ 4 then asFloat (args.getD 3 "") else 0
  let owp0 := if args.length ≥ 5 then tiClampMin (asFloat (args.getD 4 "")) obp else 1
  let owp := tiClampMin owp0 obp
  let fn := if args.length ≥ 6 then
      (if args.getD 5 "" = "*" then -1 else asInt32 (args.getD 5 "")) else -1
  let chans := if args.length ≥ 7 then adjChanFromToken (args.getD 6 "") else .rgb
  let pmg := if args.length ≥ 8 then
      (if args.getD 7 "" = "*" then true else asBool (args.getD 7 "")) else false
  { Valid := true, BlackPoint := bp, MidPoint := mw.1, WhitePoint := mw.2,
    OutBlackPoint := obp, OutWhitePoint := owp, FrameNumber := fn,
    Channels := chans, PowerMidGamma := pmg }

/-- `Command::OperationContrast` (CommandOps.h:139-143; field defaults as for
    Levels, with the 0.5 identity value). -/
structure OperationContrast where
  Valid : Bool := false
  Contrast : Rat := 1 / 2
  FrameNumber : Int := -1
  Channels : AdjChan := .rgb
deriving DecidableEq, Repr

/-- `Command::OperationContrast::OperationContrast` (CommandOps.cpp:1018-1079). -/
def operationContrast (args : List String) : OperationContrast :=
  let c := if args.getD 0 "" = "*" then (1 : Rat) / 2 else asFloat (args.getD 0 "")
  let fn := if args.length ≥ 2 then
      (if args.getD 1 "" = "*" then -1 else asInt32 (args.getD 1 "")) else -1
  let chans := if args.length ≥ 3 then adjChanFromToken (args.getD 2 "") else .rgb
  { Valid := true, Contrast := tiSaturate c, FrameNumber := fn, Channels := chans }

/-- `Command::OperationBrightness` (CommandOps.h:146-150; field defaults as for
    Contrast). -/
structure OperationBrightness where
  Valid : Bool := false
  Brightness : Rat := 1 / 2
  FrameNumber : Int := -1
  Channels : AdjChan := .rgb
deriving DecidableEq, Repr

/-- `Command::OperationBrightness::OperationBrightness`
    (CommandOps.cpp:1123-1184). -/
def operationBrightness (args : List String) : OperationBrightness :=
  let c := if args.getD 0 "" = "*" then (1 : Rat) / 2 else asFloat (args.getD 0 "")
  let fn := if args.length ≥ 2 then
      (if args.getD 1 "" = "*" then -1 else asInt32 (args.getD 1 "")) else -1
  let chans := if args.length ≥ 3 then adjChanFromToken (args.getD 2 "") else .rgb
  { Valid := true, Brightness := tiSaturate c, FrameNumber := fn, Channels := chans }

/-- `tImage::tQuantize::Method` of the external library. -/
inductive QuantMethod where
  | fixed
  | spatial
  | neu
  | wu
deriving DecidableEq, Repr

/-- `Command::OperationQuantize` (CommandOps.h:153-157; the field declarations
    are not in the checked-in header; the sample/filter and dither fields
    default to 0 before the per-method defaulting in the constructor). -/
structure OperationQuantize where
  Valid : Bool := false
  Method : QuantMethod := .wu
  NumColours : Int := 256
  CheckExact : Bool := false
  SampFilt : Int := 0
  Dither : Rat := 0
deriving DecidableEq, Repr

/-- `Command::OperationQuantize::OperationQuantize` (CommandOps.cpp:1228-1322). -/
def operationQuantize (args : List String) : OperationQuantize :=
  let tok := args.getD 0 ""
  let method :=
    if tok = "fix" then QuantMethod.fixed
    else if tok = "spc" then QuantMethod.spatial
    else if tok = "neu" then QuantMethod.neu
    else if tok = "wu" ∨ tok = "*" then QuantMethod.wu
    else QuantMethod.wu
  let nc0 := if args.getD 1 "" = "*" then 256 else asInt32 (args.getD 1 "")
  let nc := tiClamp nc0 2 256
  let ce := if args.length ≥ 3 then asBool (args.getD 2 "") else false
  let sfDflt : Int :=
    match method with
    | .spatial => 3
    | .neu => 1
    | _ => 0
  let sf :=
    if args.length ≥ 4 then
      let sfTok := args.getD 3 ""
      match method with
      | .spatial =>
        let v := if sfTok = "*" then 3 else asInt32 sfTok
        if v ≠ 1 ∧ v ≠ 3 ∧ v ≠ 5 then 3 else v
      | .neu =>
        let v := if sfTok = "*" then 1 else asInt32 sfTok
        tiClamp v 1 30
      | _ => sfDflt
    else sfDflt
  let dith : Rat :=
    if args.length ≥ 5 then
      match method with
      | .spatial =>
        let v := if args.getD 4 "" = "*" then (0 : Rat) else asFloat (args.getD 4 "")
        if v < 0 then 0 else if v > 30 then 30 else v
      | _ => 0
    else 0
  { Valid := true, Method := method, NumColours := nc, CheckExact := ce,
    SampFilt := sf, Dither := dith }

/-- `OperationChannel::ChanMode` (declared with the operation; the checked-in
    header has not caught up with the .cpp, which defines
    `Command::OperationChannel`). -/
inductive ChanMode where
  | set
  | blend
  | spread
  | intensity
deriving DecidableEq, Repr

/-- `Command::OperationChannel` (CommandOps.cpp:1356-1462; field defaults per
    the spec §4.12: mode Blend, colour opaque black, mask RGBA). -/
structure OperationChannel where
  Valid : Bool := false
  Mode : ChanMode := .blend
  Channels : Nat := tComp_RGBA
  Colour : Colour := Colour.black
deriving DecidableEq, Repr

/-- `1 << tFindFirstSetBit(mask)` (CommandOps.cpp:1415-1417) for the 4-bit
    channel masks in play. -/
def lowestSetBit (n : Nat) : Nat :=
  if n &&& 1 ≠ 0 then 1
  else if n &&& 2 ≠ 0 then 2
  else if n &&& 4 ≠ 0 then 4
  else if n &&& 8 ≠ 0 then 8
  else 0

/-- External collaborator `tString::IsNumeric`, modelled as an all-decimal
    token test. -/
def isNumericTok (s : String) : Bool := ¬ strIsEmpty s && s.data.all isDigitChar

/-- The Channel colour argument (CommandOps.cpp:1421-1459): hex, else a bare
    integer broadcast to all four channels (clamped to [0,255]), else the
    named table; unresolved keeps the opaque-black default. -/
def channelColourFromToken (tok : String) (dflt : Colour) : Colour :=
  if strHeadIs tok '#' then colourOfHex (asUInt32Hex tok)
  else if isNumericTok tok then
    let v := (tiClamp (asInt32 tok) 0 255).toNat
    ⟨v, v, v, v⟩
  else (namedColourLookup tok).getD dflt

/-- `Command::OperationChannel::OperationChannel` (CommandOps.cpp:1356-1462).
    A `*` mask expands to a mode-dependent default, an empty resulting mask is
    forced to R, and Spread collapses the mask to its lowest set bit. -/
def operationChannel (args : List String) : OperationChannel :=
  let mode :=
    if args.length ≥ 1 then
      let tok := args.getD 0 ""
      if tok = "set" then ChanMode.set
      else if tok = "*" ∨ tok = "blend" then ChanMode.blend
      else if tok = "spread" then ChanMode.spread
      else if tok = "intens" then ChanMode.intensity
      else ChanMode.blend
    else ChanMode.blend
  let chans :=
    if args.length ≥ 2 then
      let chanStr := args.getD 1 ""
      let c0 :=
        if strContains chanStr '*' then
          match mode with
          | .set => tComp_RGB
          | .blend => tComp_RGBA
          | .spread => tComp_R
          | .intensity => tComp_RGB
        else 0
      let c1 := accumChanBits chanStr c0
      let c2 := if c1 = 0 then tComp_R else c1
      if mode = .spread then lowestSetBit c2 else c2
    else tComp_RGBA
  let col := if args.length ≥ 3 then channelColourFromToken (args.getD 2 "") Colour.black
             else Colour.black
  { Valid := true, Mode := mode, Channels := chans, Colour := col }

/-- One call into the external Image mutation contract (§6 of the spec); an
    `Apply` embedding returns the list of calls it issues, in order. -/
inductive ImageCall where
  | resample (w h : Int) (filter : Filter) (edge : EdgeMode)
  | crop (w h x y : Int) (fill : Colour)
  | cropAnchor (w h : Int) (anchor : Anchor) (fill : Colour)
  | cropAnchorNoFill (w h : Int) (anchor : Anchor)
  | cropBorders (test : Colour) (mask : Nat)
  | flip (horizontal : Bool)
  | rotate90 (anticlockwise : Bool)
  | rotate (angleTok : Rat) (degrees : Bool) (fill : Colour) (up dn : Filter)
  | adjustmentBegin
  | adjustLevels (bp mp wp obp owp : Rat) (pmg : Bool) (chans : AdjChan) (allFrames : Bool)
  | adjustContrast (c : Rat) (chans : AdjChan) (allFrames : Bool)
  | adjustBrightness (b : Rat) (chans : AdjChan) (allFrames : Bool)
  | adjustmentEnd
  | quantizeFixed (nc : Int) (exact : Bool)
  | quantizeSpatial (nc : Int) (exact : Bool) (dither : Rat) (filtSize : Int)
  | quantizeNeu (nc : Int) (exact : Bool) (sampFactor : Int)
  | quantizeWu (nc : Int) (exact : Bool)
  | setAllPixels (c : Colour) (mask : Nat)
  | alphaBlend (c : Colour) (mask : Nat) (finalAlpha : Int)
  | spread (mask : Nat)
  | intensity (mask : Nat)
deriving DecidableEq, Repr

/-- The data an `Apply` reads from the Image it mutates.  `RotW`/`RotH` are the
    dimensions the image reports after the external free-angle `Rotate` call
    (only Rotate's apply consults them). -/
structure ImgInfo where
  Width : Int := 0
  Height : Int := 0
  NumFrames : Int := 1
  FrameNum : Int := 0
  Pixel00 : Colour := Colour.black
  RotW : Int := 0
  RotH : Int := 0
deriving DecidableEq, Repr

/-- Aspect-preserving fill-in of a missing dimension (CommandOps.cpp:86-93,
    shared verbatim with Canvas at 212-219): `aspect = srcW/srcH` as a float; a
    non-positive width becomes `int(h*aspect)`, else a non-positive height
    becomes `int(w/aspect)` (C float-to-int truncation). -/
def aspectPreserveDims (w h srcW srcH : Int) : Int × Int :=
  let aspect : Rat := (srcW : Rat) / (srcH : Rat)
  if w ≤ 0 then (ratTruncInt ((h : Rat) * aspect), h)
  else if h ≤ 0 then (w, ratTruncInt ((w : Rat) / aspect))
  else (w, h)

/-- The `[4, 32768]` clamp applied to both final dimensions
    (CommandOps.cpp:95-96 and 221-222). -/
def clampDims (p : Int × Int) : Int × Int :=
  (tiClamp p.1 4 32768, tiClamp p.2 4 32768)

/-- Destination dimensions of Resize and Canvas. -/
def resizeDstDims (w h srcW srcH : Int) : Int × Int :=
  clampDims (aspectPreserveDims w h srcW srcH)

/-- `Command::OperationResize::Apply` (CommandOps.cpp:77-107). -/
def resizeApply (op : OperationResize) (img : ImgInfo) : List ImageCall × Bool :=
  if img.Width ≤ 0 ∨ img.Height ≤ 0 then ([], false)
  else
    let d := resizeDstDims op.Width op.Height img.Width img.Height
    if img.Width = d.1 ∧ img.Height = d.2 then ([], true)
    else ([.resample d.1 d.2 op.ResampleFilter op.EdgeMode], true)

/-- `Command::OperationCanvas::Apply` (CommandOps.cpp:203-249).  With both
    explicit anchor coordinates non-negative the crop origin is
    `(anchorX*(srcW-dstW))/srcW, (anchorY*(srcH-dstH))/srcH` in C truncating
    integer division; otherwise the named anchor position is used. -/
def canvasApply (op : OperationCanvas) (img : ImgInfo) : List ImageCall × Bool :=
  if img.Width ≤ 0 ∨ img.Height ≤ 0 then ([], false)
  else
    let d := resizeDstDims op.Width op.Height img.Width img.Height
    if img.Width = d.1 ∧ img.Height = d.2 then ([], true)
    else if 0 ≤ op.AnchorX ∧ 0 ≤ op.AnchorY then
      let originX := (op.AnchorX * (img.Width - d.1)).tdiv img.Width
      let originY := (op.AnchorY * (img.Height - d.2)).tdiv img.Height
      ([.crop d.1 d.2 originX originY op.FillColour], true)
    else ([.cropAnchor d.1 d.2 op.Anchor op.FillColour], true)

/-- Destination dimensions of Aspect (CommandOps.cpp:358-376): in Crop mode the
    too-wide/too-tall dimension shrinks, in Letterbox the deficient one grows,
    via `tMath::tFloatToInt` round-to-nearest. -/
def aspectDstDims (op : OperationAspect) (srcW srcH : Int) : Int × Int :=
  let srcAspect : Rat := (srcW : Rat) / (srcH : Rat)
  let dstAspect : Rat := (op.Num : Rat) / (op.Den : Rat)
  match op.Mode with
  | .crop =>
    if dstAspect > srcAspect then (srcW, tFloatToInt ((srcW : Rat) / dstAspect))
    else if dstAspect < srcAspect then (tFloatToInt ((srcH : Rat) * dstAspect), srcH)
    else (srcW, srcH)
  | .letterbox =>
    if dstAspect > srcAspect then (tFloatToInt ((srcH : Rat) * dstAspect), srcH)
    else if dstAspect < srcAspect then (srcW, tFloatToInt ((srcW : Rat) / dstAspect))
    else (srcW, srcH)

/-- `Command::OperationAspect::Apply` (CommandOps.cpp:349-403); the crop step
    is identical to Canvas's. -/
def aspectApply (op : OperationAspect) (img : ImgInfo) : List ImageCall × Bool :=
  if img.Width ≤ 0 ∨ img.Height ≤ 0 then ([], false)
  else
    let d := aspectDstDims op img.Width img.Height
    if img.Width = d.1 ∧ img.Height = d.2 then ([], true)
    else if 0 ≤ op.AnchorX ∧ 0 ≤ op.AnchorY then
      let originX := (op.AnchorX * (img.Width - d.1)).tdiv img.Width
      let originY := (op.AnchorY * (img.Height - d.2)).tdiv img.Height
      ([.crop d.1 d.2 originX originY op.FillColour], true)
    else ([.cropAnchor d.1 d.2 op.Anchor op.FillColour], true)

/-- `Command::OperationDeborder::Apply` (CommandOps.cpp:461-473). -/
def deborderApply (op : OperationDeborder) (img : ImgInfo) : List ImageCall × Bool :=
  let testCol := if op.UseTestColour then op.TestColour else img.Pixel00
  ([.cropBorders testCol op.Channels], true)

/-- `Command::OperationCrop::Apply` (CommandOps.cpp:572-587): Absolute mode
    crops to `maxX+1-originX, maxY+1-originY`, Relative to the stored
    width/height, at the stored origin with the fill colour. -/
def cropApply (op : OperationCrop) : List ImageCall × Bool :=
  let newW := if op.Mode = .absolute then op.WidthOrMaxX + 1 - op.OriginX else op.WidthOrMaxX
  let newH := if op.Mode = .absolute then op.HeightOrMaxY + 1 - op.OriginY else op.HeightOrMaxY
  ([.crop newW newH op.OriginX op.OriginY op.FillColour], true)

/-- `Command::OperationFlip::Apply` (CommandOps.cpp:621-630). -/
def flipApply (op : OperationFlip) : List ImageCall × Bool :=
  ([.flip (op.Mode = .horizontal)], true)

/-- The aspect-flip swap of Rotate's re-crop (CommandOps.cpp:823-825): the
    original dimensions, swapped when the rotated bounding box flipped the
    aspect sense. -/
def rotateSwappedDims (origW origH rotW rotH : Int) : Int × Int :=
  if (origW > origH ∧ rotW < rotH) ∨ (origW < origH ∧ rotW > rotH)
  then (origH, origW) else (origW, origH)

/-- The centered-crop size computation of Rotate (CommandOps.cpp:827-841) on
    the already-swapped original dimensions: default `orig - (rot - orig)` per
    axis; when an axis lost more than half, halve that axis and rescale the
    other proportionally (C truncating division). -/
def rotateCropCore (oW oH rotW rotH : Int) : Int × Int :=
  let dx := rotW - oW
  let dy := rotH - oH
  if dx > oW.tdiv 2 then
    let newW := oW - oW.tdiv 2
    (newW, (newW * oH).tdiv oW)
  else if dy > oH.tdiv 2 then
    let newH := oH - oH.tdiv 2
    ((newH * oW).tdiv oH, newH)
  else (oW - dx, oH - dy)

/-- The post-rotation centered-crop dimensions (CommandOps.cpp:821-841):
    aspect-flip swap, then the core size computation. -/
def rotateCropDims (origW origH rotW rotH : Int) : Int × Int :=
  let s := rotateSwappedDims origW origH rotW rotH
  rotateCropCore s.1 s.2 rotW rotH

/-- `Command::OperationRotate::Apply` (CommandOps.cpp:771-858).  Exact modes
    short-circuit; otherwise the free-angle rotate is issued, Crop/Resize
    modes re-crop centered to `rotateCropDims`, and Resize mode additionally
    resamples back to the (possibly aspect-flip-swapped) original dimensions,
    with Nearest replacing a `None` up-filter, clamp edge mode. -/
def rotateApply (op : OperationRotate) (img : ImgInfo) : List ImageCall × Bool :=
  match op.Exact with
  | .zero => ([], true)
  | .acw90 => ([.rotate90 true], true)
  | .cw90 => ([.rotate90 false], true)
  | .r180 => ([.rotate90 true, .rotate90 true], true)
  | .off =>
    let rotCall := ImageCall.rotate op.AngleTok op.AngleInDegrees op.FillColour op.FilterUp op.FilterDown
    let cropPart : List ImageCall :=
      if op.Mode = .crop ∨ op.Mode = .resize then
        let nd := rotateCropDims img.Width img.Height img.RotW img.RotH
        [.cropAnchorNoFill nd.1 nd.2 .middleMiddle]
      else []
    let resizePart : List ImageCall :=
      if op.Mode = .resize then
        let s := rotateSwappedDims img.Width img.Height img.RotW img.RotH
        let filt := if op.FilterUp ≠ Filter.none then op.FilterUp else Filter.nearest
        [.resample s.1 s.2 filt .clamp]
      else []
    (rotCall :: cropPart ++ resizePart, true)

/-- `Command::OperationLevels::Apply` (CommandOps.cpp:975-1015): the all-default
    fast path skips entirely; otherwise one `AdjustLevels` between
    `AdjustmentBegin`/`AdjustmentEnd`, all-frames unless a frame was selected. -/
def levelsApply (op : OperationLevels) (img : ImgInfo) : List ImageCall × Bool :=
  if op.BlackPoint = 0 ∧ op.MidPoint = 1 / 2 ∧ op.WhitePoint = 1 ∧
      op.OutBlackPoint = 0 ∧ op.OutWhitePoint = 1 then ([], true)
  else
    let allFrames := ¬ op.FrameNumber > -1
    ([.adjustmentBegin,
      .adjustLevels op.BlackPoint op.MidPoint op.WhitePoint op.OutBlackPoint op.OutWhitePoint
        op.PowerMidGamma op.Channels allFrames,
      .adjustmentEnd], true)

/-- `Command::OperationContrast::Apply` (CommandOps.cpp:1082-1120). -/
def contrastApply (op : OperationContrast) (img : ImgInfo) : List ImageCall × Bool :=
  if op.Contrast = 1 / 2 then ([], true)
  else
    let allFrames := ¬ op.FrameNumber > -1
    ([.adjustmentBegin, .adjustContrast op.Contrast op.Channels allFrames, .adjustmentEnd], true)

/-- `Command::OperationBrightness::Apply` (CommandOps.cpp:1187-1225). -/
def brightnessApply (op : OperationBrightness) (img : ImgInfo) : List ImageCall × Bool :=
  if op.Brightness = 1 / 2 then ([], true)
  else
    let allFrames := ¬ op.FrameNumber > -1
    ([.adjustmentBegin, .adjustBrightness op.Brightness op.Channels allFrames, .adjustmentEnd], true)

/-- `Command::OperationQuantize::Apply` (CommandOps.cpp:1325-1353). -/
def quantizeApply (op : OperationQuantize) : List ImageCall × Bool :=
  match op.Method with
  | .fixed => ([.quantizeFixed op.NumColours op.CheckExact], true)
  | .spatial => ([.quantizeSpatial op.NumColours op.CheckExact op.Dither op.SampFilt], true)
  | .neu => ([.quantizeNeu op.NumColours op.CheckExact op.SampFilt], true)
  | .wu => ([.quantizeWu op.NumColours op.CheckExact], true)

/-- `Command::OperationChannel::Apply` (CommandOps.cpp:1465-1502): Blend passes
    a final-alpha override equal to the colour's alpha only when A is in the
    mask, else the -1 sentinel. -/
def channelApply (op : OperationChannel) : List ImageCall × Bool :=
  match op.Mode with
  | .set => ([.setAllPixels op.Colour op.Channels], true)
  | .blend =>
    let finalAlpha : Int := if op.Channels &&& tComp_A ≠ 0 then (op.Colour.A : Int) else -1
    ([.alphaBlend op.Colour op.Channels finalAlpha], true)
  | .spread => ([.spread op.Channels], true)
  | .intensity => ([.intensity op.Channels], true)

/-- The tagged variant over the operation kinds (`Command::Operation`,
    CommandOps.h:24-28, closed over its concrete subclasses). -/
inductive Operation where
  | resize (op : OperationResize)
  | canvas (op : OperationCanvas)
  | aspect (op : OperationAspect)
  | deborder (op : OperationDeborder)
  | crop (op : OperationCrop)
  | flip (op : OperationFlip)
  | rotate (op : OperationRotate)
  | levels (op : OperationLevels)
  | contrast (op : OperationContrast)
  | brightness (op : OperationBrightness)
  | quantize (op : OperationQuantize)
  | channel (op : OperationChannel)
deriving DecidableEq, Repr

/-- The `Valid` flag of the underlying operation (CommandOps.h:27). -/
def Operation.Valid : Operation → Bool
  | .resize op => op.Valid
  | .canvas op => op.Valid
  | .aspect op => op.Valid
  | .deborder op => op.Valid
  | .crop op => op.Valid
  | .flip op => op.Valid
  | .rotate op => op.Valid
  | .levels op => op.Valid
  | .contrast op => op.Valid
  | .brightness op => op.Valid
  | .quantize op => op.Valid
  | .channel op => op.Valid

/-- Virtual dispatch of `Operation::Apply` (CommandOps.h:26). -/
def Operation.applyCalls : Operation → ImgInfo → List ImageCall × Bool
  | .resize op, img => resizeApply op img
  | .canvas op, img => canvasApply op img
  | .aspect op, img => aspectApply op img
  | .deborder op, img => deborderApply op img
  | .crop op, _ => cropApply op
  | .flip op, _ => flipApply op
  | .rotate op, img => rotateApply op img
  | .levels op, img => levelsApply op img
  | .contrast op, img => contrastApply op img
  | .brightness op, img => brightnessApply op img
  | .quantize op, _ => quantizeApply op
  | .channel op, _ => channelApply op

/-- An operation descriptor: inferred kind plus the exploded argument tokens. -/
inductive OpKind where
  | resize
  | canvas
  | aspect
  | deborder
  | crop
  | flip
  | rotate
  | levels
  | contrast
  | brightness
  | quantize
  | channel
deriving DecidableEq, Repr

/-- A raw descriptor: kind and argument tokens. -/
structure OpDesc where
  kind : OpKind
  args : List String
deriving DecidableEq, Repr

/-- Parse-and-validate construction of one descriptor. -/
def constructOperation (d : OpDesc) : Operation :=
  match d.kind with
  | .resize => .resize (operationResize d.args)
  | .canvas => .canvas (operationCanvas d.args)
  | .aspect => .aspect (operationAspect d.args)
  | .deborder => .deborder (operationDeborder d.args)
  | .crop => .crop (operationCrop d.args)
  | .flip => .flip (operationFlip d.args)
  | .rotate => .rotate (operationRotate d.args)
  | .levels => .levels (operationLevels d.args)
  | .contrast => .contrast (operationContrast d.args)
  | .brightness => .brightness (operationBrightness d.args)
  | .quantize => .quantize (operationQuantize d.args)
  | .channel => .channel (operationChannel d.args)

/-- The parse-and-validate success condition of each constructor, read off the
    early-return guards of CommandOps.cpp: Resize/Canvas require two arguments
    and a positive dimension; Aspect two arguments; Rotate one argument; Crop
    five arguments, non-negative origins and the mode-dependent minimum span;
    every other constructor absorbs malformed tokens into defaults and always
    succeeds. -/
def constructSucceeded (d : OpDesc) : Prop :=
  match d.kind with
  | .resize =>
      2 ≤ d.args.length ∧ (0 < asInt32 (d.args.getD 0 "") ∨ 0 < asInt32 (d.args.getD 1 ""))
  | .canvas =>
      2 ≤ d.args.length ∧ (0 < asInt32 (d.args.getD 0 "") ∨ 0 < asInt32 (d.args.getD 1 ""))
  | .aspect => 2 ≤ d.args.length
  | .rotate => 1 ≤ d.args.length
  | .crop =>
      5 ≤ d.args.length ∧
      0 ≤ asInt32 (d.args.getD 1 "") ∧ 0 ≤ asInt32 (d.args.getD 2 "") ∧
      (cropModeFromToken (d.args.getD 0 "") = .absolute →
        4 ≤ cropDefaulted .absolute (asInt32 (d.args.getD 3 "")) + 1 - asInt32 (d.args.getD 1 "") ∧
        4 ≤ cropDefaulted .absolute (asInt32 (d.args.getD 4 "")) + 1 - asInt32 (d.args.getD 2 "")) ∧
      (cropModeFromToken (d.args.getD 0 "") = .relative →
        4 ≤ cropDefaulted .relative (asInt32 (d.args.getD 3 "")) ∧
        4 ≤ cropDefaulted .relative (asInt32 (d.args.getD 4 "")))
  | _ => True

/-- Modelled from the spec: the pipeline builder of the outer CLI driver,
    which is not under Src/.  Per §3 and §7, each descriptor is constructed
    exactly once and "invalid operations are never inserted into (or are
    stripped from) the executable Pipeline", preserving order. -/
def buildPipeline (descs : List OpDesc) : List Operation :=
  (descs.map constructOperation).filter Operation.Valid

/-- Modelled from the spec: the pipeline executor — strict left-to-right
    single application of every pipeline operation to the image (§3, §5). -/
def runPipeline (descs : List OpDesc) (img : ImgInfo) : List (List ImageCall × Bool) :=
  (buildPipeline descs).map (fun op => op.applyCalls img)

/-- Both components of the centered-crop core size are bounded by the
    (swapped) original dimensions whenever the rotated bounding box did not
    shrink below them. -/
theorem rotateCropCore_le (oW oH rotW rotH : Int) (hw : 0 < oW) (hh : 0 < oH)
    (h1 : oW ≤ rotW) (h2 : oH ≤ rotH) :
    (rotateCropCore oW oH rotW rotH).1 ≤ oW ∧ (rotateCropCore oW oH rotW rotH).2 ≤ oH := by
  unfold rotateCropCore
  have htw : oW.tdiv 2 = oW / 2 := Int.tdiv_eq_ediv (by omega) (by omega)
  have hth : oH.tdiv 2 = oH / 2 := Int.tdiv_eq_ediv (by omega) (by omega)
  have hw2 : 0 ≤ oW / 2 := Int.ediv_nonneg (by omega) (by omega)
  have hh2 : 0 ≤ oH / 2 := Int.ediv_nonneg (by omega) (by omega)
  have hw2s : oW / 2 ≤ oW := Int.ediv_le_self 2 (by omega)
  have hh2s : oH / 2 ≤ oH := Int.ediv_le_self 2 (by omega)
  simp only [htw, hth]
  split_ifs with hdx hdy
  · refine ⟨by omega, ?_⟩
    have hnn : (0 : Int) ≤ (oW - oW / 2) * oH := mul_nonneg (by omega) (by omega)
    rw [Int.tdiv_eq_ediv hnn (by omega)]
    calc (oW - oW / 2) * oH / oW ≤ oW * oH / oW :=
          Int.ediv_le_ediv hw (mul_le_mul_of_nonneg_right (by omega) (by omega))
      _ = oH := by rw [mul_comm]; exact Int.mul_ediv_cancel oH (by omega)
  · refine ⟨?_, by omega⟩
    have hnn : (0 : Int) ≤ (oH - oH / 2) * oW := mul_nonneg (by omega) (by omega)
    rw [Int.tdiv_eq_ediv hnn (by omega)]
    calc (oH - oH / 2) * oW / oH ≤ oH * oW / oH :=
          Int.ediv_le_ediv hh (mul_le_mul_of_nonneg_right (by omega) (by omega))
      _ = oW := by rw [mul_comm]; exact Int.mul_ediv_cancel oW (by omega)
  · exact ⟨by omega, by omega⟩

/-- The aspect-flip swap permutes two positive dimensions, so both its
    components stay positive. -/
theorem rotateSwappedDims_pos (origW origH rotW rotH : Int)
    (hW : 0 < origW) (hH : 0 < origH) :
    0 < (rotateSwappedDims origW origH rotW rotH).1 ∧
    0 < (rotateSwappedDims origW origH rotW rotH).2 := by
  unfold rotateSwappedDims
  split <;> exact ⟨by omega, by omega⟩

/-- C1: the fixed named-colour table maps the token "green" and the token
    "blue" to the red colour constant (255,0,0,255) — in the fill-colour
    table shared by Canvas/Aspect/Crop/Rotate/Deborder, in the Channel colour
    table, and in a constructed Canvas operation — while the library's green
    and blue constants differ from red, so those tokens do not parse to their
    corresponding colour values. -/
theorem c1_green_blue_tokens_resolve_to_red :
    namedColourLookup "green" = some Colour.red ∧
    namedColourLookup "blue" = some Colour.red ∧
    channelColourFromToken "green" Colour.black = Colour.red ∧
    channelColourFromToken "blue" Colour.black = Colour.red ∧
    (operationCanvas ["100", "100", "mm", "green"]).FillColour = Colour.red ∧
    (operationChannel ["set", "rgb", "blue"]).Colour = Colour.red ∧
    Colour.red ≠ Colour.green ∧ Colour.red ≠ Colour.blue := by decide

/-- C5: for a non-exact-angle Rotate in Crop mode, assuming the rotated
    bounding box is at least as large as the (aspect-flip-swapped) source
    dimensions, neither component of the computed centered-crop size exceeds
    the corresponding swapped source dimension. -/
theorem c5_rotate_crop_dims_bounded (origW origH rotW rotH : Int)
    (hW : 0 < origW) (hH : 0 < origH)
    (hbw : (rotateSwappedDims origW origH rotW rotH).1 ≤ rotW)
    (hbh : (rotateSwappedDims origW origH rotW rotH).2 ≤ rotH) :
    (rotateCropDims origW origH rotW rotH).1 ≤ (rotateSwappedDims origW origH rotW rotH).1 ∧
    (rotateCropDims origW origH rotW rotH).2 ≤ (rotateSwappedDims origW origH rotW rotH).2 := by
  obtain ⟨h1, h2⟩ := rotateSwappedDims_pos origW origH rotW rotH hW hH
  unfold rotateCropDims
  exact rotateCropCore_le _ _ rotW rotH h1 h2 hbw hbh

/-- C5 witness: a 100×50 source whose 80°-rotation bounding box is 67×108;
    the crop size (33, 92) stays within the swapped source size (50, 100). -/
theorem c5_rotate_crop_dims_bounded_witness :
    (rotateCropDims 100 50 67 108).1 ≤ (rotateSwappedDims 100 50 67 108).1 ∧
    (rotateCropDims 100 50 67 108).2 ≤ (rotateSwappedDims 100 50 67 108).2 :=
  c5_rotate_crop_dims_bounded 100 50 67 108 (by decide) (by decide) (by decide) (by decide)

/-- C8: Channel in Spread mode collapses the parsed mask to its lowest set
    bit, so the mask token "rg" constructs the exact same operation as the
    mask token "r" (mask `tComp_R`), and Apply issues the identical Image
    call. -/
theorem c8_spread_rg_equals_spread_r :
    operationChannel ["spread", "rg"] = operationChannel ["spread", "r"] ∧
    (operationChannel ["spread", "rg"]).Channels = tComp_R ∧
    channelApply (operationChannel ["spread", "rg"]) =
      channelApply (operationChannel ["spread", "r"]) := by decide

/-- C9: Levels with black 0, mid 0.5, white 1, out-black 0, out-white 1 takes
    the fast no-op path on every image: no Image-contract call is issued
    (pixel data untouched) and Apply reports success. -/
theorem c9_levels_default_is_noop :
    ∀ img : ImgInfo, levelsApply (operationLevels ["0", "0.5", "1", "0", "1"]) img = ([], true) := by
  intro img
  unfold levelsApply
  split
  · rfl
  · next h => exact absurd (by decide) h

/-- Resize constructor validity (guards of CommandOps.cpp:25-43). -/
theorem operationResize_valid_iff (args : List String) :
    (operationResize args).Valid = true ↔
      2 ≤ args.length ∧ (0 < asInt32 (args.getD 0 "") ∨ 0 < asInt32 (args.getD 1 "")) := by
  simp only [operationResize]
  split_ifs <;> simp_all <;> omega

/-- Canvas constructor validity (guards of CommandOps.cpp:114-132). -/
theorem operationCanvas_valid_iff (args : List String) :
    (operationCanvas args).Valid = true ↔
      2 ≤ args.length ∧ (0 < asInt32 (args.getD 0 "") ∨ 0 < asInt32 (args.getD 1 "")) := by
  by_cases h : args.length < 2
  · unfold operationCanvas
    rw [if_pos h]
    constructor
    · intro hf
      exact absurd hf (by decide)
    · rintro ⟨hl, -⟩
      exact absurd hl (by omega)
  · unfold operationCanvas
    rw [if_neg h]
    by_cases hwh : asInt32 (args.getD 0 "") ≤ 0 ∧ asInt32 (args.getD 1 "") ≤ 0
    · rw [if_pos hwh]
      constructor
      · intro hf
        exact Bool.noConfusion hf
      · rintro ⟨-, hpos⟩
        rcases hpos with hp | hp <;> omega
    · rw [if_neg hwh]
      constructor
      · intro _
        refine ⟨by omega, ?_⟩
        by_contra hc
        push_neg at hc
        exact hwh ⟨by omega, by omega⟩
      · intro _
        rfl

/-- Aspect constructor validity (guard of CommandOps.cpp:256-260). -/
theorem operationAspect_valid_iff (args : List String) :
    (operationAspect args).Valid = true ↔ 2 ≤ args.length := by
  by_cases h : args.length < 2
  · unfold operationAspect
    rw [if_pos h]
    constructor
    · intro hf
      exact absurd hf (by decide)
    · intro hl
      exact absurd hl (by omega)
  · unfold operationAspect
    rw [if_neg h]
    constructor
    · intro _
      omega
    · intro _
      rfl

/-- Rotate constructor validity (guard of CommandOps.cpp:637-641; every other
    path sets the flag). -/
theorem operationRotate_valid_iff (args : List String) :
    (operationRotate args).Valid = true ↔ 1 ≤ args.length := by
  by_cases h : args.length < 1
  · unfold operationRotate
    rw [if_pos h]
    constructor
    · intro hf
      exact absurd hf (by decide)
    · intro hl
      exact absurd hl (by omega)
  · unfold operationRotate
    rw [if_neg h]
    constructor
    · intro _
      omega
    · intro _
      dsimp only
      split_ifs <;> rfl

/-- Crop constructor validity (guards of CommandOps.cpp:480-538). -/
theorem operationCrop_valid_iff (args : List String) :
    (operationCrop args).Valid = true ↔
      5 ≤ args.length ∧
      0 ≤ asInt32 (args.getD 1 "") ∧ 0 ≤ asInt32 (args.getD 2 "") ∧
      (cropModeFromToken (args.getD 0 "") = .absolute →
        4 ≤ cropDefaulted .absolute (asInt32 (args.getD 3 "")) + 1 - asInt32 (args.getD 1 "") ∧
        4 ≤ cropDefaulted .absolute (asInt32 (args.getD 4 "")) + 1 - asInt32 (args.getD 2 "")) ∧
      (cropModeFromToken (args.getD 0 "") = .relative →
        4 ≤ cropDefaulted .relative (asInt32 (args.getD 3 "")) ∧
        4 ≤ cropDefaulted .relative (asInt32 (args.getD 4 ""))) := by
  by_cases h5 : args.length < 5
  · unfold operationCrop
    rw [if_pos h5]
    constructor
    · intro hf
      exact absurd hf (by decide)
    · rintro ⟨hl, -⟩
      exact absurd hl (by omega)
  · unfold operationCrop
    rw [if_neg h5]
    generalize cropModeFromToken (args.getD 0 "") = m
    generalize asInt32 (args.getD 1 "") = ox
    generalize asInt32 (args.getD 2 "") = oy
    generalize asInt32 (args.getD 3 "") = wx0
    generalize asInt32 (args.getD 4 "") = hy0
    rcases m <;> split_ifs <;> simp_all <;> first
      | omega
      | (split_ifs <;> simp_all <;> omega)

/-- C2: for every operation kind and argument-token list, the constructed
    operation's `Valid` flag is true exactly when parsing and validation
    fully succeeded (`constructSucceeded`; in particular Resize with both
    dimensions non-positive is invalid), and the pipeline builder strips
    invalid operations, so `Apply` is dispatched only on operations whose
    `Valid` flag is true. -/
theorem c2_valid_iff_success_and_apply_only_valid :
    (∀ d : OpDesc, (constructOperation d).Valid = true ↔ constructSucceeded d) ∧
    (∀ (descs : List OpDesc) (op : Operation), op ∈ buildPipeline descs → op.Valid = true) := by
  constructor
  · rintro ⟨k, args⟩
    cases k
    case resize => exact operationResize_valid_iff args
    case canvas => exact operationCanvas_valid_iff args
    case aspect => exact operationAspect_valid_iff args
    case rotate => exact operationRotate_valid_iff args
    case crop => exact operationCrop_valid_iff args
    case deborder => exact iff_of_true rfl trivial
    case flip => exact iff_of_true rfl trivial
    case levels => exact iff_of_true rfl trivial
    case contrast => exact iff_of_true rfl trivial
    case brightness => exact iff_of_true rfl trivial
    case quantize => exact iff_of_true rfl trivial
    case channel => exact iff_of_true rfl trivial
  · intro descs op hop
    exact (List.mem_filter.mp hop).2

/-- C2 witness: "8,0" parses to a valid Resize, and a one-descriptor pipeline
    built from it contains only operations whose `Valid` flag is true. -/
theorem c2_valid_iff_success_and_apply_only_valid_witness :
    (constructOperation ⟨.resize, ["8", "0"]⟩).Valid = true ∧
    (Operation.resize (operationResize ["8", "0"])).Valid = true :=
  ⟨(c2_valid_iff_success_and_apply_only_valid.1 ⟨.resize, ["8", "0"]⟩).mpr
      ⟨by decide, Or.inl (by decide)⟩,
   c2_valid_iff_success_and_apply_only_valid.2 [⟨.resize, ["8", "0"]⟩]
     (Operation.resize (operationResize ["8", "0"])) (by decide)⟩

/-- C3 counterexample: `rotate "80,resize"` supplies no up-filter argument, so
    `FilterUp` keeps its Bilinear default; on a 100×50 image whose rotated
    bounding box is 67×108, the restore resample is issued at 50×100 (the
    aspect-flip-swapped dimensions) with the Bilinear filter — not with
    nearest-neighbour as the claim states for an unsupplied up-filter, and not
    at the original 100×50. -/
theorem c3_counterexample :
    rotateApply (operationRotate ["80", "resize"])
        { Width := 100, Height := 50, RotW := 67, RotH := 108 } =
      ([.rotate 80 true Colour.black .bilinear .none,
        .cropAnchorNoFill 33 92 .middleMiddle,
        .resample 50 100 .bilinear .clamp], true) ∧
    (operationRotate ["80", "resize"]).FilterUp = Filter.bilinear ∧
    Filter.bilinear ≠ Filter.nearest ∧
    ((50 : Int), (100 : Int)) ≠ ((100 : Int), (50 : Int)) := by decide

/-- C3 (amended): for a non-exact-angle Rotate in Resize mode, after the
    centered crop the image is resampled back to the pre-rotation dimensions
    as adjusted by the aspect-flip swap, with clamp edge mode, using
    `FilterUp` whenever it is not None — `FilterUp` stays at its Bilinear
    default when no up-filter argument is supplied — and nearest-neighbour
    exactly when `FilterUp` is None (the argument "none"). -/
theorem c3_resize_restores_swapped_dims (op : OperationRotate) (img : ImgInfo)
    (hx : op.Exact = .off) (hm : op.Mode = .resize) :
    rotateApply op img =
      ([.rotate op.AngleTok op.AngleInDegrees op.FillColour op.FilterUp op.FilterDown,
        .cropAnchorNoFill (rotateCropDims img.Width img.Height img.RotW img.RotH).1
          (rotateCropDims img.Width img.Height img.RotW img.RotH).2 .middleMiddle,
        .resample (rotateSwappedDims img.Width img.Height img.RotW img.RotH).1
          (rotateSwappedDims img.Width img.Height img.RotW img.RotH).2
          (if op.FilterUp ≠ Filter.none then op.FilterUp else Filter.nearest)
          .clamp], true) := by
  unfold rotateApply
  rw [hx]
  simp [hm]

/-- C3 witness: the amended statement instantiated at `rotate "80,resize"` on
    a 100×50 image reporting a 67×108 rotated bounding box. -/
theorem c3_resize_restores_swapped_dims_witness :
    rotateApply (operationRotate ["80", "resize"])
        { Width := 100, Height := 50, RotW := 67, RotH := 108 } =
      ([.rotate (operationRotate ["80", "resize"]).AngleTok
          (operationRotate ["80", "resize"]).AngleInDegrees
          (operationRotate ["80", "resize"]).FillColour
          (operationRotate ["80", "resize"]).FilterUp
          (operationRotate ["80", "resize"]).FilterDown,
        .cropAnchorNoFill (rotateCropDims 100 50 67 108).1
          (rotateCropDims 100 50 67 108).2 .middleMiddle,
        .resample (rotateSwappedDims 100 50 67 108).1
          (rotateSwappedDims 100 50 67 108).2
          (if (operationRotate ["80", "resize"]).FilterUp ≠ Filter.none
            then (operationRotate ["80", "resize"]).FilterUp else Filter.nearest)
          .clamp], true) :=
  c3_resize_restores_swapped_dims (operationRotate ["80", "resize"])
    { Width := 100, Height := 50, RotW := 67, RotH := 108 } (by decide) (by decide)

/-- C4 counterexample: Resize "11,*" on a 7×5 source computes the missing
    height as the truncation of 11/(7/5) = 7.857…, that is 7, and resamples to
    11×7; round-to-nearest of the aspect-preserving division would give 8. -/
theorem c4_counterexample :
    resizeApply (operationResize ["11", "*"]) { Width := 7, Height := 5 } =
      ([.resample 11 7 .bilinear .clamp], true) ∧
    (aspectPreserveDims 11 0 7 5).2 = 7 ∧
    ratRoundNearest ((11 : Rat) / ((7 : Rat) / (5 : Rat))) = 8 ∧
    (7 : Int) ≠ 8 := by decide

/-- C4 (amended): for a Resize with only width positive on a positive-sized
    source, the missing height is computed, before the [4, 32768] clamp, as
    the truncation toward zero of the aspect-preserving division
    width/(srcW/srcH) = width·srcH/srcW — not its round-to-nearest. -/
theorem c4_missing_height_truncated (w srcW srcH : Int)
    (hw : 0 < w) (hsw : 0 < srcW) (hsh : 0 < srcH) :
    (aspectPreserveDims w 0 srcW srcH).2 =
      ratTruncInt ((w : Rat) * (srcH : Rat) / (srcW : Rat)) := by
  unfold aspectPreserveDims
  have h1 : ¬ w ≤ 0 := by omega
  simp only [h1, if_false, le_refl, if_true, if_pos]
  congr 1
  rw [div_div_eq_mul_div]

/-- C4 witness: the amended statement instantiated at width 11 on a 7×5
    source. -/
theorem c4_missing_height_truncated_witness :
    (aspectPreserveDims 11 0 7 5).2 =
      ratTruncInt ((11 : Rat) * (5 : Rat) / (7 : Rat)) :=
  c4_missing_height_truncated 11 7 5 (by decide) (by decide) (by decide)

/-- C6: whenever Canvas or Aspect takes the explicit-coordinate path (source
    positive, size actually changing, both explicit coordinates
    non-negative), the crop origin passed to the Image contract is exactly
    `(anchorX*(srcW-dstW))/srcW, (anchorY*(srcH-dstH))/srcH`, with C
    truncating integer division performed after the multiplication. -/
theorem c6_explicit_origin_exact_formula :
    (∀ (op : OperationCanvas) (img : ImgInfo),
      ¬ (img.Width ≤ 0 ∨ img.Height ≤ 0) →
      ¬ (img.Width = (resizeDstDims op.Width op.Height img.Width img.Height).1 ∧
         img.Height = (resizeDstDims op.Width op.Height img.Width img.Height).2) →
      0 ≤ op.AnchorX → 0 ≤ op.AnchorY →
      canvasApply op img =
        ([.crop (resizeDstDims op.Width op.Height img.Width img.Height).1
            (resizeDstDims op.Width op.Height img.Width img.Height).2
            ((op.AnchorX * (img.Width - (resizeDstDims op.Width op.Height img.Width img.Height).1)).tdiv
              img.Width)
            ((op.AnchorY * (img.Height - (resizeDstDims op.Width op.Height img.Width img.Height).2)).tdiv
              img.Height)
            op.FillColour], true)) ∧
    (∀ (op : OperationAspect) (img : ImgInfo),
      ¬ (img.Width ≤ 0 ∨ img.Height ≤ 0) →
      ¬ (img.Width = (aspectDstDims op img.Width img.Height).1 ∧
         img.Height = (aspectDstDims op img.Width img.Height).2) →
      0 ≤ op.AnchorX → 0 ≤ op.AnchorY →
      aspectApply op img =
        ([.crop (aspectDstDims op img.Width img.Height).1
            (aspectDstDims op img.Width img.Height).2
            ((op.AnchorX * (img.Width - (aspectDstDims op img.Width img.Height).1)).tdiv img.Width)
            ((op.AnchorY * (img.Height - (aspectDstDims op img.Width img.Height).2)).tdiv img.Height)
            op.FillColour], true)) := by
  constructor
  · intro op img h1 h2 h3 h4
    simp only [canvasApply]
    rw [if_neg h1, if_neg h2, if_pos ⟨h3, h4⟩]
  · intro op img h1 h2 h3 h4
    simp only [aspectApply]
    rw [if_neg h1, if_neg h2, if_pos ⟨h3, h4⟩]

/-- C6 witness: `canvas "50,50,mm,black,10,10"` on a 100×100 image crops at
    origin (10·(100−50))/100 = 5 per axis. -/
theorem c6_explicit_origin_exact_formula_witness :
    canvasApply (operationCanvas ["50", "50", "mm", "black", "10", "10"])
        { Width := 100, Height := 100 } =
      ([.crop
          (resizeDstDims (operationCanvas ["50", "50", "mm", "black", "10", "10"]).Width
            (operationCanvas ["50", "50", "mm", "black", "10", "10"]).Height 100 100).1
          (resizeDstDims (operationCanvas ["50", "50", "mm", "black", "10", "10"]).Width
            (operationCanvas ["50", "50", "mm", "black", "10", "10"]).Height 100 100).2
          (((operationCanvas ["50", "50", "mm", "black", "10", "10"]).AnchorX *
            (100 - (resizeDstDims (operationCanvas ["50", "50", "mm", "black", "10", "10"]).Width
              (operationCanvas ["50", "50", "mm", "black", "10", "10"]).Height 100 100).1)).tdiv 100)
          (((operationCanvas ["50", "50", "mm", "black", "10", "10"]).AnchorY *
            (100 - (resizeDstDims (operationCanvas ["50", "50", "mm", "black", "10", "10"]).Width
              (operationCanvas ["50", "50", "mm", "black", "10", "10"]).Height 100 100).2)).tdiv 100)
          (operationCanvas ["50", "50", "mm", "black", "10", "10"]).FillColour], true) :=
  c6_explicit_origin_exact_formula.1 (operationCanvas ["50", "50", "mm", "black", "10", "10"])
    { Width := 100, Height := 100 } (by decide) (by decide) (by decide) (by decide)

/-- C7: a valid Absolute-mode Crop applies a crop of width `maxX+1-originX`
    and height `maxY+1-originY` at `(originX, originY)`; for at least five
    arguments parsed to Absolute mode, validity holds exactly when both
    origins are non-negative and both spans are at least 4; and
    `crop "abs,0,0,99,99"` crops to width and height 100. -/
theorem c7_crop_absolute_semantics :
    (∀ op : OperationCrop, op.Valid = true → op.Mode = .absolute →
      cropApply op =
        ([.crop (op.WidthOrMaxX + 1 - op.OriginX) (op.HeightOrMaxY + 1 - op.OriginY)
          op.OriginX op.OriginY op.FillColour], true)) ∧
    (∀ args : List String, 5 ≤ args.length → (operationCrop args).Mode = .absolute →
      ((operationCrop args).Valid = true ↔
        0 ≤ (operationCrop args).OriginX ∧ 0 ≤ (operationCrop args).OriginY ∧
        4 ≤ (operationCrop args).WidthOrMaxX + 1 - (operationCrop args).OriginX ∧
        4 ≤ (operationCrop args).HeightOrMaxY + 1 - (operationCrop args).OriginY)) ∧
    cropApply (operationCrop ["abs", "0", "0", "99", "99"]) =
      ([.crop 100 100 0 0 Colour.transparent], true) := by
  refine ⟨?_, ?_, by decide⟩
  · intro op hv hm
    unfold cropApply
    rw [hm]
    simp
  · intro args hlen hmode
    have hlt : ¬ args.length < 5 := by omega
    simp only [operationCrop, hlt, if_false] at hmode ⊢
    generalize cropModeFromToken (args.getD 0 "") = m at hmode ⊢
    generalize asInt32 (args.getD 1 "") = ox at hmode ⊢
    generalize asInt32 (args.getD 2 "") = oy at hmode ⊢
    generalize cropDefaulted m (asInt32 (args.getD 3 "")) = wx at hmode ⊢
    generalize cropDefaulted m (asInt32 (args.getD 4 "")) = hy at hmode ⊢
    split_ifs at hmode ⊢ <;> simp_all <;> omega

/-- C7 witness: the apply shape and the validity characterization
    instantiated at `crop "abs,0,0,99,99"`. -/
theorem c7_crop_absolute_semantics_witness :
    cropApply (operationCrop ["abs", "0", "0", "99", "99"]) =
      ([.crop ((operationCrop ["abs", "0", "0", "99", "99"]).WidthOrMaxX + 1 -
            (operationCrop ["abs", "0", "0", "99", "99"]).OriginX)
          ((operationCrop ["abs", "0", "0", "99", "99"]).HeightOrMaxY + 1 -
            (operationCrop ["abs", "0", "0", "99", "99"]).OriginY)
          (operationCrop ["abs", "0", "0", "99", "99"]).OriginX
          (operationCrop ["abs", "0", "0", "99", "99"]).OriginY
          (operationCrop ["abs", "0", "0", "99", "99"]).FillColour], true) ∧
    (operationCrop ["abs", "0", "0", "99", "99"]).Valid = true :=
  ⟨c7_crop_absolute_semantics.1 (operationCrop ["abs", "0", "0", "99", "99"])
      (by decide) (by decide),
   (c7_crop_absolute_semantics.2.1 ["abs", "0", "0", "99", "99"]
      (by decide) (by decide)).mpr (by decide)⟩

/-- C10: Canvas and Aspect take the explicit-coordinate path only when both
    explicit coordinates are non-negative: if either is negative (in
    particular at its -1 default), the named-anchor crop is issued and the
    supplied coordinate is ignored; and the constructor leaves a coordinate at
    -1 when its argument is absent or is the wildcard. -/
theorem c10_both_coords_required_for_explicit_path :
    (∀ (op : OperationCanvas) (img : ImgInfo),
      ¬ (img.Width ≤ 0 ∨ img.Height ≤ 0) →
      ¬ (img.Width = (resizeDstDims op.Width op.Height img.Width img.Height).1 ∧
         img.Height = (resizeDstDims op.Width op.Height img.Width img.Height).2) →
      ¬ (0 ≤ op.AnchorX ∧ 0 ≤ op.AnchorY) →
      canvasApply op img =
        ([.cropAnchor (resizeDstDims op.Width op.Height img.Width img.Height).1
            (resizeDstDims op.Width op.Height img.Width img.Height).2
            op.Anchor op.FillColour], true)) ∧
    (∀ (op : OperationAspect) (img : ImgInfo),
      ¬ (img.Width ≤ 0 ∨ img.Height ≤ 0) →
      ¬ (img.Width = (aspectDstDims op img.Width img.Height).1 ∧
         img.Height = (aspectDstDims op img.Width img.Height).2) →
      ¬ (0 ≤ op.AnchorX ∧ 0 ≤ op.AnchorY) →
      aspectApply op img =
        ([.cropAnchor (aspectDstDims op img.Width img.Height).1
            (aspectDstDims op img.Width img.Height).2
            op.Anchor op.FillColour], true)) ∧
    (∀ args : List String, args.length = 5 → (operationCanvas args).AnchorY = -1) ∧
    (∀ args : List String, 6 ≤ args.length → strHeadIs (args.getD 5 "") '*' = true →
      (operationCanvas args).AnchorY = -1) := by
  refine ⟨?_, ?_, ?_, ?_⟩
  · intro op img h1 h2 h3
    simp only [canvasApply]
    rw [if_neg h1, if_neg h2, if_neg h3]
  · intro op img h1 h2 h3
    simp only [aspectApply]
    rw [if_neg h1, if_neg h2, if_neg h3]
  · intro args h5
    simp only [operationCanvas]
    split_ifs <;> simp_all
  · intro args h6 hstar
    simp only [operationCanvas, anchorCoordFromToken]
    split_ifs <;> simp_all

/-- C10 witness: `canvas "50,50,mm,black,10"` (anchorX supplied, anchorY left
    at -1) on a 100×100 image takes the named-anchor path. -/
theorem c10_both_coords_required_for_explicit_path_witness :
    canvasApply (operationCanvas ["50", "50", "mm", "black", "10"])
        { Width := 100, Height := 100 } =
      ([.cropAnchor
          (resizeDstDims (operationCanvas ["50", "50", "mm", "black", "10"]).Width
            (operationCanvas ["50", "50", "mm", "black", "10"]).Height 100 100).1
          (resizeDstDims (operationCanvas ["50", "50", "mm", "black", "10"]).Width
            (operationCanvas ["50", "50", "mm", "black", "10"]).Height 100 100).2
          (operationCanvas ["50", "50", "mm", "black", "10"]).Anchor
          (operationCanvas ["50", "50", "mm", "black", "10"]).FillColour], true) ∧
    (operationCanvas ["50", "50", "mm", "black", "10"]).AnchorY = -1 :=
  ⟨c10_both_coords_required_for_explicit_path.1
      (operationCanvas ["50", "50", "mm", "black", "10"]) { Width := 100, Height := 100 }
      (by decide) (by decide) (by decide),
   c10_both_coords_required_for_explicit_path.2.2.1 ["50", "50", "mm", "black", "10"] (by decide)⟩

end TacentOps
